import Mathlib

/-!
Shallow embedding of the minio-js client (`src/src/main/minio.js`) for
verification of its natural-language specification.

Pure decision logic of the client is translated into Lean functions:
request addressing (`getRequestOptions`), endpoint parsing in the
constructor, multipart part-size selection (`calculatePartSize`),
response dispatch in `makeRequest`, the Range-header computation of
`getPartialObject`, the region cache step of `getBucketRegion`, the
`listBuckets` error rewrite, and the strategy selection of `putObject`.
Stateful or effectful parts (the region cache, the HTTP transport) are
passed explicitly: the transport's answer to a request becomes an
explicit argument, and the cache becomes a value threaded in and out.

Functions imported from `helpers.js` (which is not part of the sources
at hand), such as the URI escaping of object keys and the bucket/object
name validators, are taken as explicit function parameters, so every
statement below holds for any choice of them.
-/

/-- The JS constructor tests `host.match('.amazonaws.com$')`.  The dots in
the pattern string are unescaped regular-expression dots, so the test
succeeds exactly when the host ends with a 14-character block of the
shape ⟨any char⟩`amazonaws`⟨any char⟩`com`.  In particular the bare host
`"amazonaws.com"` (13 characters) does NOT match. -/
def matchesAmazonPattern (host : String) : Bool :=
  let cs := host.data
  let n := cs.length
  decide (n ≥ 14)
    && ((cs.drop (n - 13)).take 9 == "amazonaws".data)
    && (cs.drop (n - 3) == "com".data)

/-- The observable configuration a freshly constructed client carries:
endpoint host, resolved port, resolved protocol string, and the
`minioStorage` flag (`true` = self-hosted path-style addressing). -/
structure ClientState where
  host : String
  port : Nat
  protocol : String
  minioStorage : Bool
deriving DecidableEq, Repr

/-- Construction-time failures of the client constructor. -/
inductive CtorError where
  | invalidEndPoint
  | invalidProtocol
deriving DecidableEq, Repr

/-- Embedding of `Client.constructor` (minio.js lines 42-106).  Inputs are
the fields `Url.parse` extracts from `params.endPoint` (`urlProtocol` is
the scheme with trailing colon, `port` is `0` when the URL names none,
mirroring `+parsedUrl.port`), plus whether a custom `transport` argument
was supplied.  The amazonaws-host check runs first; the protocol switch
(scheme validation and port defaulting) runs only when no transport
override is given. -/
def clientConstructor (urlProtocol host : String) (port : Nat)
    (hasTransport : Bool) : Except CtorError ClientState :=
  if matchesAmazonPattern host && host != "s3.amazonaws.com" then
    Except.error CtorError.invalidEndPoint
  else
    let minioStorage := !(matchesAmazonPattern host)
    if hasTransport then
      Except.ok ⟨host, port, "", minioStorage⟩
    else if urlProtocol = "http:" then
      Except.ok ⟨host, if port = 0 then 80 else port, "http:", minioStorage⟩
    else if urlProtocol = "https:" then
      Except.ok ⟨host, if port = 0 then 443 else port, "https:", minioStorage⟩
    else
      Except.error CtorError.invalidProtocol

/-- The `host` and `path` fields of the request descriptor built by
`Client.getRequestOptions`. -/
structure ReqOptions where
  host : String
  path : String
deriving DecidableEq, Repr

/-- The final step of `getRequestOptions`:
`if (query) reqOptions.path += ?query` appends the single string
`"?" ++ query` to the path already built. -/
def applyQuery (r : ReqOptions) (query : Option String) : ReqOptions :=
  match query with
  | some q => ⟨r.host, r.path ++ ("?" ++ q)⟩
  | none => r

/-- Embedding of `Client.getRequestOptions` (minio.js lines 108-142),
restricted to the `host`/`path` computation the addressing claims are
about.  `esc` stands for `uriResourceEscape` from `helpers.js`.  A JS
falsy (absent or empty) `bucketName`/`objectName`/`query` is `none`;
when `objectName` is present but `bucketName` is not, the JS template
literal stringifies `undefined`, which the path-style branch reproduces. -/
def getRequestOptions (esc : String → String) (minioStorage : Bool)
    (confHost : String) (bucketName objectName query : Option String) :
    ReqOptions :=
  let objEsc := objectName.map esc
  let base : ReqOptions :=
    if minioStorage then
      ⟨confHost,
        match bucketName, objEsc with
        | some b, some o => "/" ++ b ++ "/" ++ o
        | some b, none => "/" ++ b
        | none, some o => "/undefined/" ++ o
        | none, none => "/"⟩
    else
      ⟨(match bucketName with
        | some b => b ++ "." ++ confHost
        | none => confHost),
        match objEsc with
        | some o => "/" ++ o
        | none => "/"⟩
  applyQuery base query

/-- Where `makeRequest` routes a response: to the caller's success
continuation, or into the error-document pipeline. -/
inductive Dispatch where
  | success
  | errorPath
deriving DecidableEq, Repr

/-- Embedding of the response dispatch of `Client.makeRequest`
(minio.js lines 189-198): a falsy (zero) `statusCode` hands the response
to the callback unexamined; otherwise a response status different from
`statusCode` is piped into the error transformer, and an equal one is
handed to the callback. -/
def makeRequestDispatch (statusCode responseStatus : Nat) : Dispatch :=
  if statusCode = 0 then Dispatch.success
  else if statusCode ≠ responseStatus then Dispatch.errorPath
  else Dispatch.success

/-- Embedding of the status test `getPartialObject` applies to the
response it receives from `makeRequest` (minio.js line 578): only 200
and 206 reach the caller as a body stream. -/
def getPartialObjectAccepts (status : Nat) : Bool :=
  status == 200 || status == 206

/-- The specification's wording for what an `expectedStatus` of 0 should
accept: any 2xx or 3xx status.  Stated for comparison with
`makeRequestDispatch`, which does not implement it. -/
def accepts2xx3xx (status : Nat) : Bool :=
  decide (200 ≤ status) && decide (status < 400)

/-- Failures of a region lookup. -/
inductive RegionError where
  | network
  | http (status : Nat)
deriving DecidableEq, Repr

/-- First value stored under a key in the association list modelling the
JS object `regionMap` (later bindings shadowed, as JS assignment
overwrites and our single writer conses the fresh binding in front). -/
def regionLookup (bucket : String) : List (String × String) → Option String
  | [] => none
  | (b, r) :: rest => if b = bucket then some r else regionLookup bucket rest

/-- Embedding of `Client.getBucketRegion` (minio.js lines 205-236) as one
explicit-state step.  `resp` is the transport's behaviour for the
`GET /{bucket}?location` request: `none` models a request-level error
event, `some (status, body)` a response with the given status whose
parsed `LocationConstraint` is `body`.  Returns the callback's result
and the region map after the call.  The JS truthiness test
`if (this.regionMap[bucketName])` makes an empty-string cache entry a
miss, which the `cached ≠ ""` guard reproduces. -/
def getBucketRegion (host bucket : String) (map : List (String × String))
    (resp : Option (Nat × String)) :
    Except RegionError String × List (String × String) :=
  if host ≠ "s3.amazonaws.com" then (Except.ok "us-east-1", map)
  else if bucket = "" then (Except.ok "us-east-1", map)
  else if (regionLookup bucket map).getD "" ≠ "" then
    (Except.ok ((regionLookup bucket map).getD ""), map)
  else
    match resp with
    | none => (Except.error RegionError.network, map)
    | some (status, body) =>
      if status ≠ 200 then (Except.error (RegionError.http status), map)
      else
        (Except.ok (if body = "" then "us-east-1" else body),
         (bucket, if body = "" then "us-east-1" else body) :: map)

/-- Embedding of the local function `calculatePartSize` inside
`Client.putObject` (minio.js lines 626-636).  Note the source's ceiling
constant is `5 * 1025 * 1024 * 1024`, not 5 GiB. -/
def calculatePartSize (size : Nat) : Nat :=
  let minimumPartSize := 5 * 1024 * 1024
  let maximumPartSize := 5 * 1025 * 1024 * 1024
  let partSize := size / 9999
  if partSize > maximumPartSize then maximumPartSize
  else max minimumPartSize partSize

/-- Part size as the specification words it:
`clamp(floor(size/9999), 5 MiB, 5 GiB)`.  Stated for comparison with
`calculatePartSize`. -/
def specPartSize (size : Nat) : Nat :=
  min (max (size / 9999) (5 * 1024 * 1024)) (5 * 1024 * 1024 * 1024)

/-- The successive waterfall stages of the multipart branch of
`Client.putObject` (minio.js lines 646-670). -/
inductive PutPhase where
  | findUploadId
  | listPartsOrInitiate
  | uploadParts
  | completeUpload
deriving DecidableEq, Repr

/-- Modelled from the spec: `doPutObject` lives in `multipart.js`, which
is not among the sources at hand.  Per the spec it issues a single PUT
of the buffered body and yields the transport's ETag: we record the one
request issued and the returned tag. -/
def doPutObject (body : List Nat) (transportETag : String) :
    List (String × List Nat) × String :=
  ([("PUT", body)], transportETag)

/-- Embedding of the size-based strategy selection of `Client.putObject`
(minio.js lines 638-677).  `chunks` is the caller's input stream as a
list of byte chunks; a declared size of at most 5 MiB buffers the whole
stream (the concater) and issues the single PUT of `doPutObject`, any
larger size enters the multipart waterfall, whose stages are listed in
source order. -/
def putObject (size : Int) (chunks : List (List Nat))
    (transportETag : String) :
    (List (String × List Nat) × String) ⊕ List PutPhase :=
  if size ≤ 5 * 1024 * 1024 then
    Sum.inl (doPutObject chunks.flatten transportETag)
  else
    Sum.inr [PutPhase.findUploadId, PutPhase.listPartsOrInitiate,
             PutPhase.uploadParts, PutPhase.completeUpload]

/-- Embedding of the Range-header computation of
`Client.getPartialObject` (minio.js lines 557-573): `none` when no
`Range` header is set (the built `range` string stays empty), otherwise
the header value.  JS numeric truthiness makes exactly the value `0`
falsy, which the `≠ 0` tests reproduce. -/
def getPartialObjectRange (offset length : Int) : Option String :=
  if offset ≠ 0 ∨ length ≠ 0 then
    some (if length ≠ 0 then
      (if offset ≠ 0 then "bytes=" ++ toString offset ++ "-" else "bytes=0-")
        ++ toString (length + (if offset ≠ 0 then offset else 0) - 1)
    else
      (if offset ≠ 0 then "bytes=" ++ toString offset ++ "-" else "bytes=0-"))
  else none

/-- The JS `String.prototype.trim()`: strip leading and trailing
whitespace.  Written with structural recursion so that it evaluates on
concrete inputs. -/
def jsTrim (s : String) : String :=
  String.mk (((s.data.dropWhile Char.isWhitespace).reverse.dropWhile
    Char.isWhitespace).reverse)

/-- Synchronous validation failures shared by `getObject` and
`getPartialObject`. -/
inductive ValidationError where
  | invalidBucketName
  | invalidObjectName
  | emptyObjectName
deriving DecidableEq, Repr

/-- The request a successful `getPartialObject` hands to `makeRequest`:
method, names, optional Range header, and the `expectedStatus` argument. -/
structure GetRequest where
  method : String
  bucketName : String
  objectName : String
  rangeHeader : Option String
  expectedStatus : Nat
deriving DecidableEq, Repr

/-- Embedding of `Client.getPartialObject` (minio.js lines 537-589) up to
the point the request is issued: the validations in source order, then
the request descriptor passed to `makeRequest` with `expectedStatus` 0
(acceptance of the response status is `getPartialObjectAccepts`).
`vb`/`vo` stand for `isValidBucketName`/`isValidObjectName` from
`helpers.js`. -/
def getPartialObject (vb vo : String → Bool) (bucketName objectName : String)
    (offset length : Int) : Except ValidationError GetRequest :=
  if !(vb bucketName) then Except.error ValidationError.invalidBucketName
  else if !(vo objectName) then Except.error ValidationError.invalidObjectName
  else if jsTrim objectName = "" then Except.error ValidationError.emptyObjectName
  else Except.ok ⟨"GET", bucketName, objectName,
                  getPartialObjectRange offset length, 0⟩

/-- Embedding of `Client.getObject` (minio.js lines 513-527): the same
validations, then the delegation
`this.getPartialObject(bucketName, objectName, 0, 0, cb)`. -/
def getObject (vb vo : String → Bool) (bucketName objectName : String) :
    Except ValidationError GetRequest :=
  if !(vb bucketName) then Except.error ValidationError.invalidBucketName
  else if !(vo objectName) then Except.error ValidationError.invalidObjectName
  else if jsTrim objectName = "" then Except.error ValidationError.emptyObjectName
  else getPartialObject vb vo bucketName objectName 0 0

/-- A parsed server error as seen by the `listBuckets` error handler:
its `code` and `message` fields. -/
structure S3Error where
  code : String
  message : String
deriving DecidableEq, Repr

/-- Embedding of the error rewrite in `Client.listBuckets`
(minio.js lines 297-303): a `TemporaryRedirect` code becomes
`AccessDenied` with an authorization message; every other error is
passed to the caller unchanged. -/
def listBucketsErrorRewrite (e : S3Error) : S3Error :=
  if e.code = "TemporaryRedirect" then
    ⟨"AccessDenied", "Valid and authorized credentials required"⟩
  else e

/-! ## Theorems -/

/-- C1: the code contradicts the claimed part-size formula
`clamp(floor(size/9999), 5 MiB, 5 GiB)` at declared size 10^15 bytes
(a size the multipart path of `putObject` handles): `calculatePartSize`
caps the part size at its constant `5 * 1025 * 1024 * 1024` =
5373952000, while the claimed clamp yields 5 GiB = 5368709120.  The
source constant is an off-by-one slip on the GiB constant
(`1025` for `1024`); 5 GiB is the S3 part-size ceiling the code
intends. -/
theorem calculatePartSize_failing_input :
    calculatePartSize 1000000000000000 = 5 * 1025 * 1024 * 1024
    ∧ specPartSize 1000000000000000 = 5 * 1024 * 1024 * 1024
    ∧ calculatePartSize 1000000000000000 ≠ specPartSize 1000000000000000 := by
  decide

/-- C2: addressing of every request descriptor built by
`getRequestOptions`.  In path-style (self-hosted, `minioStorage = true`)
mode the host is the configured host and the path is `/`, extended to
`/{bucket}` and `/{bucket}/{escapedObject}` as the names are present; in
virtual-host-style (Amazon) mode the host is `{bucket}.{confHost}` when
a bucket is present and the path carries only the escaped object key, so
the bucket never appears in the path.  Stated for every escaping
function, configured host, bucket, object and query. -/
theorem getRequestOptions_addressing (esc : String → String)
    (confHost b o : String) (q : Option String) :
    getRequestOptions esc true confHost (some b) (some o) q =
      applyQuery ⟨confHost, "/" ++ b ++ "/" ++ esc o⟩ q
    ∧ getRequestOptions esc true confHost (some b) none q =
      applyQuery ⟨confHost, "/" ++ b⟩ q
    ∧ getRequestOptions esc true confHost none none q =
      applyQuery ⟨confHost, "/"⟩ q
    ∧ getRequestOptions esc false confHost (some b) (some o) q =
      applyQuery ⟨b ++ "." ++ confHost, "/" ++ esc o⟩ q
    ∧ getRequestOptions esc false confHost (some b) none q =
      applyQuery ⟨b ++ "." ++ confHost, "/"⟩ q
    ∧ getRequestOptions esc false confHost none (some o) q =
      applyQuery ⟨confHost, "/" ++ esc o⟩ q
    ∧ getRequestOptions esc false confHost none none q =
      applyQuery ⟨confHost, "/"⟩ q :=
  ⟨rfl, rfl, rfl, rfl, rfl, rfl, rfl⟩

/-- C3: counterexample.  The endpoint hostname `"amazonaws.com"` ends in
`"amazonaws.com"` (it is that very string), yet construction succeeds
and yields a self-hosted path-style client: the JS pattern
`'.amazonaws.com$'` needs a character in front of `amazonaws`, so the
13-character host does not match and no invalid-endpoint error is
thrown. -/
theorem clientConstructor_bare_amazonaws :
    clientConstructor "http:" "amazonaws.com" 0 false =
      Except.ok ⟨"amazonaws.com", 80, "http:", true⟩
    ∧ ∃ pre : String, "amazonaws.com" = pre ++ "amazonaws.com" :=
  ⟨rfl, "", rfl⟩

/-- C3 (amended): a hostname is treated as Amazon exactly when it
matches the unescaped-dot pattern `'.amazonaws.com$'`, i.e. ends in a
14-character block ⟨any⟩`amazonaws`⟨any⟩`com`; such a hostname must
equal `"s3.amazonaws.com"` or construction throws an invalid-endpoint
error, and every successfully constructed client is self-hosted
path-style precisely when the hostname does not match the pattern. -/
theorem clientConstructor_amazon_rule (urlProtocol host : String)
    (port : Nat) (hasTransport : Bool) :
    (matchesAmazonPattern host = true → host ≠ "s3.amazonaws.com" →
      clientConstructor urlProtocol host port hasTransport =
        Except.error CtorError.invalidEndPoint)
    ∧ (∀ st : ClientState,
        clientConstructor urlProtocol host port hasTransport =
          Except.ok st →
        st.minioStorage = !(matchesAmazonPattern host)) := by
  constructor
  · intro hm hne
    simp [clientConstructor, hm, hne]
  · intro st hok
    unfold clientConstructor at hok
    split at hok
    · cases hok
    · split at hok
      · cases hok; rfl
      · split at hok
        · cases hok; rfl
        · split at hok
          · cases hok; rfl
          · cases hok

/-- C3 (witness): the amended rule applied at concrete endpoints:
`foo.amazonaws.com` (matches the pattern, differs from
`s3.amazonaws.com`) is rejected, and the client constructed for
`s3.amazonaws.com` is in Amazon (non-path-style) mode. -/
theorem clientConstructor_amazon_rule_witness :
    clientConstructor "https:" "foo.amazonaws.com" 0 false =
      Except.error CtorError.invalidEndPoint
    ∧ (⟨"s3.amazonaws.com", 443, "https:", false⟩ : ClientState).minioStorage
      = !(matchesAmazonPattern "s3.amazonaws.com") :=
  ⟨(clientConstructor_amazon_rule "https:" "foo.amazonaws.com" 0 false).1
      (by decide) (by decide),
   (clientConstructor_amazon_rule "https:" "s3.amazonaws.com" 0 false).2
      ⟨"s3.amazonaws.com", 443, "https:", false⟩ rfl⟩

/-- C4: counterexample.  `makeRequest` called with `expectedStatus` 0
hands a status-500 response to the caller's success continuation, even
though 500 is not a 2xx/3xx status: the claim that 0 "accepts exactly
the 2xx/3xx statuses" fails on the code, which performs no status check
at all in that case. -/
theorem makeRequestDispatch_zero_counterexample :
    makeRequestDispatch 0 500 = Dispatch.success
    ∧ accepts2xx3xx 500 = false := by
  decide

/-- C4 (amended): when `expectedStatus` is nonzero, a response with
exactly that status goes to the success path and any other status is
routed to the error parser; `expectedStatus` 0 delivers the response to
the caller unexamined, whatever the status; and `getPartialObject`
(hence a GET of an object) itself accepts exactly the statuses 200 and
206 as success. -/
theorem makeRequestDispatch_amended (expected actual : Nat) :
    makeRequestDispatch 0 actual = Dispatch.success
    ∧ (expected ≠ 0 → expected = actual →
        makeRequestDispatch expected actual = Dispatch.success)
    ∧ (expected ≠ 0 → expected ≠ actual →
        makeRequestDispatch expected actual = Dispatch.errorPath)
    ∧ (getPartialObjectAccepts actual = true ↔ (actual = 200 ∨ actual = 206)) := by
  refine ⟨rfl, ?_, ?_, ?_⟩
  · intro h0 heq
    simp [makeRequestDispatch, h0, heq]
  · intro h0 hne
    simp [makeRequestDispatch, h0, hne]
  · simp [getPartialObjectAccepts]

/-- C4 (witness): the amended dispatch rule at concrete statuses:
expected 200 with actual 404 goes to the error parser, expected 200 with
actual 200 succeeds, and status 206 is accepted by `getPartialObject`. -/
theorem makeRequestDispatch_amended_witness :
    makeRequestDispatch 200 404 = Dispatch.errorPath
    ∧ makeRequestDispatch 200 200 = Dispatch.success
    ∧ getPartialObjectAccepts 206 = true :=
  ⟨(makeRequestDispatch_amended 200 404).2.2.1 (by decide) (by decide),
   (makeRequestDispatch_amended 200 200).2.1 (by decide) rfl,
   (makeRequestDispatch_amended 0 206).2.2.2.mpr (Or.inr rfl)⟩

/-- Helper: a `getBucketRegion` step either leaves the cache untouched
or extends it in front with the binding for the queried bucket (and in
the latter case reports that region as its successful result). -/
theorem getBucketRegion_snd_cases (host bucket : String)
    (map : List (String × String)) (resp : Option (Nat × String)) :
    (getBucketRegion host bucket map resp).2 = map
    ∨ ∃ region,
        getBucketRegion host bucket map resp =
          (Except.ok region, (bucket, region) :: map) := by
  unfold getBucketRegion
  split
  · exact Or.inl rfl
  · split
    · exact Or.inl rfl
    · split
      · exact Or.inl rfl
      · split
        · exact Or.inl rfl
        · split
          · exact Or.inl rfl
          · exact Or.inr ⟨_, rfl⟩

/-- C5: the region cache is monotonic and never negatively cached.  Any
step of `getBucketRegion` preserves every established (non-empty, as the
single writer only stores non-empty regions) cache entry, and whenever
the step reports an error to its caller the cache is left exactly as it
was. -/
theorem getBucketRegion_cache_monotonic (host bucket : String)
    (map : List (String × String)) (resp : Option (Nat × String)) :
    (∀ b r, regionLookup b map = some r → r ≠ "" →
      regionLookup b (getBucketRegion host bucket map resp).2 = some r)
    ∧ (∀ e, (getBucketRegion host bucket map resp).1 = Except.error e →
        (getBucketRegion host bucket map resp).2 = map) := by
  constructor
  · intro b r hmem hr
    unfold getBucketRegion
    split
    · exact hmem
    · split
      · exact hmem
      · split
        · exact hmem
        · rename_i hmiss
          split
          · exact hmem
          · split
            · exact hmem
            · show regionLookup b ((bucket, _) :: map) = some r
              unfold regionLookup
              by_cases hb : bucket = b
              · exfalso
                apply hmiss
                rw [hb, hmem]
                exact hr
              · rw [if_neg hb]
                exact hmem
  · intro e herr
    rcases getBucketRegion_snd_cases host bucket map resp with h | ⟨region, h⟩
    · exact h
    · rw [h] at herr
      simp at herr

/-- C5 (witness): a concrete step on a cache already holding
`mybucket ↦ eu-west-1`, with a transport that would answer
`us-west-2`: the entry survives unchanged; and a failing lookup for a
fresh bucket leaves an empty cache empty. -/
theorem getBucketRegion_cache_monotonic_witness :
    regionLookup "mybucket"
      ((getBucketRegion "s3.amazonaws.com" "mybucket"
        [("mybucket", "eu-west-1")] (some (200, "us-west-2"))).2)
      = some "eu-west-1"
    ∧ (getBucketRegion "s3.amazonaws.com" "newbucket" [] none).2 = [] :=
  ⟨(getBucketRegion_cache_monotonic "s3.amazonaws.com" "mybucket"
      [("mybucket", "eu-west-1")] (some (200, "us-west-2"))).1
      "mybucket" "eu-west-1" rfl (by decide),
   (getBucketRegion_cache_monotonic "s3.amazonaws.com" "newbucket"
      [] none).2 RegionError.network rfl⟩

/-- C6: counterexample.  With a custom transport supplied (the
constructor's second argument), an endpoint with scheme `ftp:`
constructs successfully — the scheme switch, the invalid-protocol
error, and the port defaulting all sit inside `if (!transport)` — so
"any other scheme makes construction fail" does not hold of the code as
stated; the port is also left at 0 rather than defaulted. -/
theorem clientConstructor_scheme_counterexample :
    clientConstructor "ftp:" "example.com" 0 true =
      Except.ok ⟨"example.com", 0, "", true⟩ := rfl

/-- C6 (amended): when no transport override is given, scheme `http:`
yields default port 80 and scheme `https:` yields default port 443 (an
explicit nonzero port is kept), and any other scheme fails construction
with an invalid-protocol error; with a transport override the scheme is
not validated and no port default is applied.  Stated for every
non-Amazon hostname (the amazonaws check precedes the scheme switch). -/
theorem clientConstructor_scheme_amended (urlProtocol host : String)
    (port : Nat) (hm : matchesAmazonPattern host = false) :
    clientConstructor "http:" host port false =
      Except.ok ⟨host, if port = 0 then 80 else port, "http:", true⟩
    ∧ clientConstructor "https:" host port false =
      Except.ok ⟨host, if port = 0 then 443 else port, "https:", true⟩
    ∧ (urlProtocol ≠ "http:" → urlProtocol ≠ "https:" →
        clientConstructor urlProtocol host port false =
          Except.error CtorError.invalidProtocol) := by
  refine ⟨?_, ?_, ?_⟩
  · simp [clientConstructor, hm]
  · simp [clientConstructor, hm]
  · intro h1 h2
    simp [clientConstructor, hm, h1, h2]

/-- C6 (witness): the amended scheme rule at the endpoint host
`example.com`: `http:` with no explicit port defaults to port 80, and
`ftp:` without a transport override is rejected. -/
theorem clientConstructor_scheme_amended_witness :
    clientConstructor "http:" "example.com" 0 false =
      Except.ok ⟨"example.com", 80, "http:", true⟩
    ∧ clientConstructor "ftp:" "example.com" 9000 false =
      Except.error CtorError.invalidProtocol :=
  ⟨(clientConstructor_scheme_amended "ftp:" "example.com" 0 (by decide)).1,
   (clientConstructor_scheme_amended "ftp:" "example.com" 9000
      (by decide)).2.2 (by decide) (by decide)⟩

/-- C7: `putObject` strategy selection.  A declared size of at most
5 MiB buffers the whole input stream and issues exactly one PUT whose
body is the concatenation of the stream's chunks, returning the
transport's ETag; any larger size enters the multipart waterfall
(find upload id, list parts or initiate, upload parts, complete). -/
theorem putObject_strategy (size : Int) (chunks : List (List Nat))
    (etag : String) :
    (size ≤ 5 * 1024 * 1024 →
      putObject size chunks etag =
        Sum.inl ([("PUT", chunks.flatten)], etag))
    ∧ (5 * 1024 * 1024 < size →
      putObject size chunks etag =
        Sum.inr [PutPhase.findUploadId, PutPhase.listPartsOrInitiate,
                 PutPhase.uploadParts, PutPhase.completeUpload]) := by
  constructor
  · intro h
    unfold putObject
    rw [if_pos h]
    rfl
  · intro h
    unfold putObject
    rw [if_neg (by omega)]

/-- C7 (witness): a 1 MiB upload issues the single PUT of its buffered
chunks; a 30 MiB upload goes multipart. -/
theorem putObject_strategy_witness :
    putObject 1048576 [[1, 2], [3]] "etag1" =
      Sum.inl ([("PUT", [1, 2, 3])], "etag1")
    ∧ putObject 31457280 [] "x" =
      Sum.inr [PutPhase.findUploadId, PutPhase.listPartsOrInitiate,
               PutPhase.uploadParts, PutPhase.completeUpload] :=
  ⟨(putObject_strategy 1048576 [[1, 2], [3]] "etag1").1 (by decide),
   (putObject_strategy 31457280 [] "x").2 (by decide)⟩

/-- C8: for every `getPartialObject` call with `offset` or `length`
nonzero, the request carries a Range header `bytes=off-lastByte` with
`lastByte = off + len - 1`, or the open-ended `bytes=off-` when `len`
is zero. -/
theorem getPartialObjectRange_correct (offset length : Int)
    (h : offset ≠ 0 ∨ length ≠ 0) :
    getPartialObjectRange offset length =
      some (if length = 0 then "bytes=" ++ toString offset ++ "-"
        else "bytes=" ++ toString offset ++ "-"
          ++ toString (offset + length - 1)) := by
  unfold getPartialObjectRange
  rw [if_pos h]
  by_cases ho : offset = 0
  · have hl : length ≠ 0 := by
      rcases h with h1 | h1
      · exact absurd ho h1
      · exact h1
    subst ho
    rw [if_pos hl, if_neg (by simp), if_neg hl, ite_self,
      show (0 : Int) + length - 1 = length + 0 - 1 by ring,
      show ("bytes=" ++ toString (0 : Int) ++ "-") = "bytes=0-" from rfl]
  · by_cases hl : length = 0
    · rw [if_neg (by simpa using hl), if_pos ho, if_pos hl]
    · rw [if_pos hl, if_pos ho, if_pos ho, if_neg hl,
        show offset + length - 1 = length + offset - 1 by ring]

/-- C8 (witness): offset 5 and length 10 produce `bytes=5-14`. -/
theorem getPartialObjectRange_correct_witness :
    getPartialObjectRange 5 10 = some "bytes=5-14" :=
  (getPartialObjectRange_correct 5 10 (by decide)).trans (by decide)

/-- C9: a `listBuckets` failure whose server error code is
`TemporaryRedirect` is delivered to the caller with code rewritten to
`AccessDenied` and an authorization message; an error with any other
code passes through unchanged. -/
theorem listBuckets_error_rewrite_correct (e : S3Error) :
    (e.code = "TemporaryRedirect" →
      listBucketsErrorRewrite e =
        ⟨"AccessDenied", "Valid and authorized credentials required"⟩)
    ∧ (e.code ≠ "TemporaryRedirect" → listBucketsErrorRewrite e = e) := by
  constructor
  · intro hc
    simp [listBucketsErrorRewrite, hc]
  · intro hc
    simp [listBucketsErrorRewrite, hc]

/-- C9 (witness): the rewrite at two concrete errors: a
`TemporaryRedirect` becomes `AccessDenied`, a `NoSuchBucket` is
untouched. -/
theorem listBuckets_error_rewrite_witness :
    listBucketsErrorRewrite ⟨"TemporaryRedirect", "redirected"⟩ =
      ⟨"AccessDenied", "Valid and authorized credentials required"⟩
    ∧ listBucketsErrorRewrite ⟨"NoSuchBucket", "missing"⟩ =
      ⟨"NoSuchBucket", "missing"⟩ :=
  ⟨(listBuckets_error_rewrite_correct ⟨"TemporaryRedirect", "redirected"⟩).1 rfl,
   (listBuckets_error_rewrite_correct ⟨"NoSuchBucket", "missing"⟩).2
      (by decide)⟩

/-- C10: `getObject bucket object` behaves identically to
`getPartialObject bucket object 0 0` for every choice of the name
validators and every bucket and object name; in particular the
full-object request carries no Range header and is issued with
`expectedStatus` 0, whose success path hands the raw body stream to the
caller. -/
theorem getObject_refines_getPartialObject (vb vo : String → Bool)
    (bucketName objectName : String) :
    getObject vb vo bucketName objectName =
      getPartialObject vb vo bucketName objectName 0 0
    ∧ getPartialObjectRange 0 0 = none
    ∧ (∀ req : GetRequest,
        getObject vb vo bucketName objectName = Except.ok req →
          req.rangeHeader = none ∧ req.expectedStatus = 0) := by
  have hmain : getObject vb vo bucketName objectName =
      getPartialObject vb vo bucketName objectName 0 0 := by
    unfold getObject getPartialObject
    by_cases h1 : vb bucketName = true
    · by_cases h2 : vo objectName = true
      · by_cases h3 : jsTrim objectName = ""
        · simp [h1, h2, h3]
        · simp [h1, h2, h3]
      · simp [h1, h2]
    · simp [h1]
  refine ⟨hmain, rfl, ?_⟩
  intro req hok
  rw [hmain] at hok
  unfold getPartialObject at hok
  split at hok
  · cases hok
  · split at hok
    · cases hok
    · split at hok
      · cases hok
      · cases hok
        exact ⟨rfl, rfl⟩

/-- C10 (witness): the refinement at concrete names with validators that
accept everything: the built request is the same and carries no Range
header. -/
theorem getObject_refines_witness :
    getObject (fun _ => true) (fun _ => true) "bucket" "obj" =
      getPartialObject (fun _ => true) (fun _ => true) "bucket" "obj" 0 0
    ∧ ((⟨"GET", "bucket", "obj", none, 0⟩ : GetRequest).rangeHeader = none
      ∧ (⟨"GET", "bucket", "obj", none, 0⟩ : GetRequest).expectedStatus = 0) :=
  ⟨(getObject_refines_getPartialObject (fun _ => true) (fun _ => true)
      "bucket" "obj").1,
   (getObject_refines_getPartialObject (fun _ => true) (fun _ => true)
      "bucket" "obj").2.2 ⟨"GET", "bucket", "obj", none, 0⟩ rfl⟩
